import Mathlib

/-!
Shallow embedding of the t-shirt-generator job-orchestration core.

Sources embedded (TypeScript):
- src/types/domain.types.ts        : record types and statuses
- src/services/storage/dynamo.ts   : metadata store operations
- src/services/storage/s3.ts       : artifact store operations and key builders
- src/services/slack/verification.ts : Slack request signature verification
- src/handlers/image-generator.ts  : Generation Worker (processGenerationJob)
- src/handlers/action-processor.ts : Action Worker (keep/discard/batch/regenerate)
- the Slack slash-command gateway handler (intake gateway)

Modelling conventions:
- Machine effects (DynamoDB, S3, SQS, Slack webhooks) act on an explicit
  `World` state; each Dynamo status write is additionally appended to a log
  so that observed write sequences can be stated.
- `Buffer` contents are opaque and modelled as `String`.
- HMAC-SHA256 is an external crypto primitive; `verifySlackRequest` is
  parametrised by the hex-digest function, exactly as the source is
  parametrised by `node:crypto`.
- Slack message *contents* (block builders) are out of scope of the spec;
  webhook/post calls are logged by their target so that their presence,
  absence and ordering remain observable.
- Promise.all over per-image work is modelled as sequential iteration over
  the fetched snapshot; the claims under study do not depend on the
  interleaving of per-image writes.
-/

namespace TShirtGen

/-- `RequestStatus` from domain.types.ts. -/
inductive RequestStatus
  | pending
  | generating
  | completed
  | failed
deriving DecidableEq, Repr

/-- `ImageStatus` from domain.types.ts. -/
inductive ImageStatus
  | generated
  | kept
  | discarded
deriving DecidableEq, Repr

/-- `GenerationRequest` from domain.types.ts. -/
structure GenerationRequest where
  requestId : String
  userId : String
  channelId : String
  prompt : String
  enhancedPrompt : String
  status : RequestStatus
  model : String
  responseUrl : String
  createdAt : String
  updatedAt : String
  ttl : Option Nat := none
deriving DecidableEq, Repr

/-- `GeneratedImage` from domain.types.ts. -/
structure GeneratedImage where
  imageId : String
  requestId : String
  s3Key : String
  status : ImageStatus
  presignedUrl : Option String := none
  presignedUrlExpiry : Option String := none
  createdAt : String
  ttl : Option Nat := none
deriving DecidableEq, Repr

/-- `GenerationJobMessage` from domain.types.ts. -/
structure GenerationJobMessage where
  requestId : String
  userId : String
  channelId : String
  prompt : String
  responseUrl : String
deriving DecidableEq, Repr

/-- Wall-clock inputs threaded where the source calls `new Date()` /
`Date.now()`: `iso` is the ISO string, `epoch` the epoch-seconds value. -/
structure Clock where
  iso : String
  epoch : Nat
deriving DecidableEq, Repr

/-- The shared mutable state of the system: the two DynamoDB tables, the S3
bucket (key to object bytes), the generation SQS queue, the outbound Slack
calls, and logs of every Dynamo status write (used to state trace
properties about the observed sequence of status values). -/
structure World where
  requests : List GenerationRequest
  images : List GeneratedImage
  s3 : List (String × String)
  generationQueue : List GenerationJobMessage
  webhookLog : List String
  slackPosts : List String
  requestStatusLog : List (String × RequestStatus)
  imageStatusLog : List (String × String × ImageStatus)
deriving DecidableEq, Repr

/-- The empty initial state. -/
def World.empty : World :=
  { requests := []
    images := []
    s3 := []
    generationQueue := []
    webhookLog := []
    slackPosts := []
    requestStatusLog := []
    imageStatusLog := [] }

/-! ## Metadata store (src/services/storage/dynamo.ts) -/

/-- Key predicate for a `GeneratedImage` item: DynamoDB composite key
`{imageId, requestId}`. -/
def imageKeyEq (imageId requestId : String) (img : GeneratedImage) : Bool :=
  img.imageId == imageId && img.requestId == requestId

/-- `createRequest`: `PutCommand` with
`ConditionExpression: attribute_not_exists(requestId)`. The conditional
write throws (`none`) when an item with the same `requestId` already
exists.  The status carried by the created item is recorded in the
request-status log as the first observed status of the request. -/
def createRequest (w : World) (r : GenerationRequest) : Option World :=
  if w.requests.any (fun q => q.requestId == r.requestId) then
    none
  else
    some { w with
      requests := w.requests ++ [r]
      requestStatusLog := w.requestStatusLog ++ [(r.requestId, r.status)] }

/-- `getRequest`: `GetCommand` by `requestId`. -/
def getRequest (w : World) (requestId : String) : Option GenerationRequest :=
  w.requests.find? (fun r => r.requestId == requestId)

/-- `updateRequestStatus`: unconditional `UpdateCommand` setting `status`
and `updatedAt`; there is no condition expression guarding the current
status.  The write is appended to the request-status log. -/
def updateRequestStatus (w : World) (requestId : String) (status : RequestStatus)
    (nowIso : String) : World :=
  { w with
    requests := w.requests.map (fun r =>
      if r.requestId == requestId then
        { r with status := status, updatedAt := nowIso }
      else r)
    requestStatusLog := w.requestStatusLog ++ [(requestId, status)] }

/-- `createImage`: plain `PutCommand` with **no** condition expression — an
unconditional put that overwrites any item with the same composite key. -/
def createImage (w : World) (img : GeneratedImage) : World :=
  { w with
    images :=
      w.images.filter (fun x => !(imageKeyEq img.imageId img.requestId x)) ++ [img] }

/-- `getImage`: `GetCommand` by the composite key. -/
def getImage (w : World) (imageId requestId : String) : Option GeneratedImage :=
  w.images.find? (imageKeyEq imageId requestId)

/-- `getImagesByRequest`: `QueryCommand` on the `requestId-index`. -/
def getImagesByRequest (w : World) (requestId : String) : List GeneratedImage :=
  w.images.filter (fun img => img.requestId == requestId)

/-- `updateImageStatus`: unconditional `UpdateCommand` setting `status`
(and, exactly when the new status is `discarded`, a 7-day item TTL).  The
handlers under study never pass the optional presigned-url fields, so those
branches of the update expression are elided.  The write is appended to the
image-status log. -/
def updateImageStatus (w : World) (imageId requestId : String)
    (status : ImageStatus) (nowEpoch : Nat) : World :=
  { w with
    images := w.images.map (fun img =>
      if imageKeyEq imageId requestId img then
        { img with
          status := status
          ttl := if status == ImageStatus.discarded
                 then some (nowEpoch + 7 * 24 * 60 * 60)
                 else img.ttl }
      else img)
    imageStatusLog := w.imageStatusLog ++ [(imageId, requestId, status)] }

/-- `updateImageS3Key`: unconditional `UpdateCommand` setting `s3Key`. -/
def updateImageS3Key (w : World) (imageId requestId s3Key : String) : World :=
  { w with
    images := w.images.map (fun img =>
      if imageKeyEq imageId requestId img then
        { img with s3Key := s3Key }
      else img) }

/-! ## Artifact store (src/services/storage/s3.ts) -/

/-- Object lookup in the bucket. -/
def s3Get (s3 : List (String × String)) (key : String) : Option String :=
  (s3.find? (fun kv => kv.1 == key)).map (fun kv => kv.2)

/-- `PutObjectCommand`: overwrite the object at `key`. -/
def s3Put (s3 : List (String × String)) (key content : String) :
    List (String × String) :=
  s3.filter (fun kv => kv.1 != key) ++ [(key, content)]

/-- `copyImage` (`CopyObjectCommand`): copies the object at `sourceKey` to
`destinationKey`; throws (`none`) when the source object does not exist. -/
def copyImage (s3 : List (String × String)) (sourceKey destinationKey : String) :
    Option (List (String × String)) :=
  match s3Get s3 sourceKey with
  | none => none
  | some content => some (s3Put s3 destinationKey content)

/-- `buildTempImageKey` from s3.ts. -/
def buildTempImageKey (requestId imageId : String) : String :=
  "temp/" ++ requestId ++ "/" ++ imageId ++ ".png"

/-- `buildSavedImageKey` from s3.ts. -/
def buildSavedImageKey (userId requestId imageId : String) : String :=
  "saved/" ++ userId ++ "/" ++ requestId ++ "/" ++ imageId ++ ".png"

/-- `buildCdnUrl` from s3.ts. -/
def buildCdnUrl (cdnDomain key : String) : String :=
  "https://" ++ cdnDomain ++ "/" ++ key

/-! ## Slack request verification (src/services/slack/verification.ts) -/

/-- Result record of `verifySlackRequest`. -/
structure VerificationResult where
  valid : Bool
  error : Option String := none
deriving DecidableEq, Repr

/-- Decimal digit value of a character, for `parseInt`. -/
def digitVal (c : Char) : Option Nat :=
  if '0' ≤ c ∧ c ≤ '9' then some (c.toNat - '0'.toNat) else none

/-- Left-to-right accumulation over the maximal leading digit run. -/
def parseDigitsGo (acc : Nat) : List Char → Nat
  | [] => acc
  | c :: rest =>
    match digitVal c with
    | none => acc
    | some d => parseDigitsGo (acc * 10 + d) rest

/-- Value of the maximal run of leading decimal digits; `none` when there
is no leading digit (JavaScript `parseInt` yields `NaN` in that case). -/
def parseDigits : List Char → Option Nat
  | [] => none
  | c :: rest =>
    match digitVal c with
    | none => none
    | some d => some (parseDigitsGo d rest)

/-- JavaScript `parseInt(s, 10)`: skip leading whitespace, read an optional
sign, then the maximal run of leading decimal digits; `NaN` (here `none`)
when no digit follows. -/
def parseIntJS (s : String) : Option Int :=
  let chars := s.data.dropWhile Char.isWhitespace
  match chars with
  | '-' :: rest => (parseDigits rest).map (fun n => -(n : Int))
  | '+' :: rest => (parseDigits rest).map (fun n => (n : Int))
  | rest => (parseDigits rest).map (fun n => (n : Int))

/-- `MAX_REQUEST_AGE_SECONDS` from verification.ts. -/
def maxRequestAgeSeconds : Int := 300

/-- `verifySlackRequest`, parametrised by the HMAC-SHA256 hex digest
function `hmacHex secret message` (the `node:crypto` primitive) and the
current epoch-seconds clock.  Faithful branch order: timestamp parse check,
staleness check, then string construction, length check and constant-time
comparison. -/
def verifySlackRequest (hmacHex : String → String → String) (nowEpoch : Int)
    (signingSecret timestamp body signature : String) : VerificationResult :=
  match parseIntJS timestamp with
  | none => { valid := false, error := some "Invalid timestamp format" }
  | some requestTimestamp =>
    if nowEpoch - requestTimestamp > maxRequestAgeSeconds then
      { valid := false, error := some "Request timestamp too old" }
    else
      let sigBaseString := "v0:" ++ timestamp ++ ":" ++ body
      let expectedSignature := "v0=" ++ hmacHex signingSecret sigBaseString
      if signature.length != expectedSignature.length then
        { valid := false, error := some "Signature length mismatch" }
      else if signature == expectedSignature then
        { valid := true, error := none }
      else
        { valid := false, error := some "Signature mismatch" }

/-! ## Generation Worker (src/handlers/image-generator.ts) -/

/-- Outcome of the `try` body of `processGenerationJob`: the provider call
either returns image buffers, or throws, or the provider call succeeds and
one of the per-image artifact commits throws after `okImages` artifacts
were committed (partial success under `Promise.all`). -/
inductive GenOutcome
  | success (images : List String)
  | providerThrow (e : String)
  | commitThrow (okImages : List String) (e : String)
deriving DecidableEq, Repr

/-- One artifact commit of the generation worker: upload the buffer to the
temp-scope key, then `createImage` with status `generated` — in that
order. -/
def commitArtifact (requestId : String) (clock : Clock) (w : World)
    (idAndImage : String × String) : World :=
  let s3Key := buildTempImageKey requestId idAndImage.1
  let w1 := { w with s3 := s3Put w.s3 s3Key idAndImage.2 }
  createImage w1
    { imageId := idAndImage.1
      requestId := requestId
      s3Key := s3Key
      status := ImageStatus.generated
      createdAt := clock.iso }

/-- Commit every generated buffer, each under a freshly minted `imageId`
(`uuidv4()` per image, modelled by the supplied fresh-id list, zipped with
the buffers). -/
def commitArtifacts (requestId : String) (clock : Clock) (freshIds : List String)
    (images : List String) (w : World) : World :=
  (freshIds.zip images).foldl (commitArtifact requestId clock) w

/-- The failure-notification attempt: `respondToWebhook` inside its own
`try`; a throw of the webhook call (`notifyFails`) is caught and only
logged, leaving the state unchanged. -/
def attemptFailureNotice (w : World) (responseUrl : String) (notifyFails : Bool) :
    World :=
  if notifyFails then w
  else { w with webhookLog := w.webhookLog ++ [responseUrl] }

/-- `processGenerationJob`: set status `generating`, then run the `try`
body.  On success: commit all artifacts, post the results message, set
status `completed`, raise nothing.  On a throw from the provider call or an
artifact commit: set status `failed`, attempt the failure notice (its own
failure is swallowed), and re-raise the original error (returned as
`some e`). -/
def processGenerationJob (w : World) (job : GenerationJobMessage)
    (outcome : GenOutcome) (freshIds : List String) (notifyFails : Bool)
    (clock : Clock) : World × Option String :=
  let w1 := updateRequestStatus w job.requestId RequestStatus.generating clock.iso
  match outcome with
  | GenOutcome.success images =>
    let w2 := commitArtifacts job.requestId clock freshIds images w1
    let w3 := { w2 with slackPosts := w2.slackPosts ++ [job.channelId] }
    let w4 := updateRequestStatus w3 job.requestId RequestStatus.completed clock.iso
    (w4, none)
  | GenOutcome.providerThrow e =>
    let w2 := updateRequestStatus w1 job.requestId RequestStatus.failed clock.iso
    (attemptFailureNotice w2 job.responseUrl notifyFails, some e)
  | GenOutcome.commitThrow okImages e =>
    let w2 := commitArtifacts job.requestId clock freshIds okImages w1
    let w3 := updateRequestStatus w2 job.requestId RequestStatus.failed clock.iso
    (attemptFailureNotice w3 job.responseUrl notifyFails, some e)

/-! ## Action Worker (src/handlers/action-processor.ts) -/

/-- `respondToWebhook` call rebuilding/replacing the original message:
logged by its response URL. -/
def postWebhook (w : World) (responseUrl : String) : World :=
  { w with webhookLog := w.webhookLog ++ [responseUrl] }

/-- `handleKeepImage`: fetch the record (throw when absent), copy the
artifact from its current key to the saved-scope key, update the record's
`s3Key`, set status `kept`, then rebuild and push the updated view.  No
check of the record's current status is performed anywhere on this path. -/
def handleKeepImage (w : World) (imageId requestId userId responseUrl : String)
    (clock : Clock) : Option World :=
  match getImage w imageId requestId with
  | none => none
  | some image =>
    let destinationKey := buildSavedImageKey userId requestId imageId
    match copyImage w.s3 image.s3Key destinationKey with
    | none => none
    | some s3' =>
      let w1 := { w with s3 := s3' }
      let w2 := updateImageS3Key w1 imageId requestId destinationKey
      let w3 := updateImageStatus w2 imageId requestId ImageStatus.kept clock.epoch
      some (postWebhook w3 responseUrl)

/-- `handleDiscardImage`: set status `discarded` (no storage mutation),
then rebuild and push the updated view.  No check of the record's current
status is performed. -/
def handleDiscardImage (w : World) (imageId requestId responseUrl : String)
    (clock : Clock) : World :=
  postWebhook
    (updateImageStatus w imageId requestId ImageStatus.discarded clock.epoch)
    responseUrl

/-- Per-image loop body of `handleKeepAll` over the fetched snapshot:
images whose status is not `generated` are skipped; each remaining image is
copied to the saved key, its `s3Key` updated and its status set `kept`. -/
def keepAllGo (requestId userId : String) (clock : Clock) :
    List GeneratedImage → World → Option World
  | [], w => some w
  | image :: rest, w =>
    if image.status != ImageStatus.generated then
      keepAllGo requestId userId clock rest w
    else
      let destinationKey := buildSavedImageKey userId requestId image.imageId
      match copyImage w.s3 image.s3Key destinationKey with
      | none => none
      | some s3' =>
        let w1 := { w with s3 := s3' }
        let w2 := updateImageS3Key w1 image.imageId requestId destinationKey
        let w3 := updateImageStatus w2 image.imageId requestId ImageStatus.kept
          clock.epoch
        keepAllGo requestId userId clock rest w3

/-- `handleKeepAll`: fetch all images of the request (throw when there are
none), run the per-image keep logic on every image still in `generated`
status, then rebuild and push the updated view. -/
def handleKeepAll (w : World) (requestId userId responseUrl : String)
    (clock : Clock) : Option World :=
  let images := getImagesByRequest w requestId
  if images.length == 0 then none
  else
    (keepAllGo requestId userId clock images w).map
      (fun w' => postWebhook w' responseUrl)

/-- Per-image loop body of `handleDiscardAll` over the fetched snapshot:
only images already in `discarded` status are skipped; every other image
(including those in `kept` status) has its status set to `discarded`. -/
def discardAllGo (requestId : String) (clock : Clock) :
    List GeneratedImage → World → World
  | [], w => w
  | image :: rest, w =>
    if image.status == ImageStatus.discarded then
      discardAllGo requestId clock rest w
    else
      discardAllGo requestId clock rest
        (updateImageStatus w image.imageId requestId ImageStatus.discarded
          clock.epoch)

/-- `handleDiscardAll`: fetch all images of the request (no emptiness
check), discard every image not already discarded, then push the updated
view. -/
def handleDiscardAll (w : World) (requestId responseUrl : String)
    (clock : Clock) : World :=
  postWebhook (discardAllGo requestId clock (getImagesByRequest w requestId) w)
    responseUrl

/-- `handleRegenerateAll`: mint a fresh `requestId`, create a fresh
`GenerationRequest` (status `pending`, prompt copied from
`originalPrompt`) via the conditional insert, enqueue a new
`GenerationJob` for the new id, and push a "regenerating" view.  The
original request's record and its images are never touched. -/
def handleRegenerateAll (w : World) (userId channelId originalPrompt responseUrl : String)
    (freshId : String) (bedrockModel : String) (clock : Clock) : Option World :=
  let generationRequest : GenerationRequest :=
    { requestId := freshId
      userId := userId
      channelId := channelId
      prompt := originalPrompt
      enhancedPrompt := ""
      status := RequestStatus.pending
      model := bedrockModel
      responseUrl := responseUrl
      createdAt := clock.iso
      updatedAt := clock.iso
      ttl := some (clock.epoch + 30 * 24 * 60 * 60) }
  match createRequest w generationRequest with
  | none => none
  | some w1 =>
    let jobMessage : GenerationJobMessage :=
      { requestId := freshId
        userId := userId
        channelId := channelId
        prompt := originalPrompt
        responseUrl := responseUrl }
    let w2 := { w1 with generationQueue := w1.generationQueue ++ [jobMessage] }
    some (postWebhook w2 responseUrl)

/-- The action of an `ActionJobMessage` together with the payload fields
the dispatcher dereferences with a non-null assertion (`imageId!`,
`originalPrompt!`): `keep`/`discard` carry the target `imageId`,
`regenerate_all` carries the original prompt. -/
inductive ActionOp
  | keep (imageId : String)
  | discard (imageId : String)
  | keepAll
  | discardAll
  | regenerateAll (originalPrompt : String)
deriving DecidableEq, Repr

/-- The `switch (action)` dispatch of `processActionJob`, covering every
Action Worker operation. -/
def processActionJob (w : World) (op : ActionOp)
    (requestId userId channelId responseUrl : String)
    (freshId : String) (bedrockModel : String) (clock : Clock) : Option World :=
  match op with
  | ActionOp.keep imageId =>
    handleKeepImage w imageId requestId userId responseUrl clock
  | ActionOp.discard imageId =>
    some (handleDiscardImage w imageId requestId responseUrl clock)
  | ActionOp.keepAll =>
    handleKeepAll w requestId userId responseUrl clock
  | ActionOp.discardAll =>
    some (handleDiscardAll w requestId responseUrl clock)
  | ActionOp.regenerateAll originalPrompt =>
    handleRegenerateAll w userId channelId originalPrompt responseUrl freshId
      bedrockModel clock

/-! ## Intake Gateway: the Slack slash-command webhook handler -/

/-- An API Gateway invocation: headers and optional raw body. -/
structure ApiEvent where
  headers : List (String × String)
  body : Option String
deriving DecidableEq, Repr

/-- The response bodies the gateway can produce.  Message *contents* (block
builders) are out of scope of the spec; each body is identified by which
builder produced it. -/
inductive ResponseBody
  | errorMissingHeaders
  | errorServerConfig
  | errorInvalidSignature
  | errorInvalidPayload
  | channelRestrictionMessage
  | emptyPromptMessage
  | generatingMessage (prompt : String)
  | tryAgainMessage
deriving DecidableEq, Repr

/-- An `APIGatewayProxyResult`: HTTP status code and body. -/
structure ApiResult where
  statusCode : Nat
  body : ResponseBody
deriving DecidableEq, Repr

/-- Header lookup. -/
def headerValue (headers : List (String × String)) (k : String) : Option String :=
  (headers.find? (fun kv => kv.1 == k)).map (fun kv => kv.2)

/-- `extractSlackHeaders`: the `??`-chain over the three header spellings,
then the truthiness check `if (!timestamp || !signature)` (an empty string
is falsy in JavaScript, so empty header values also yield `null`). -/
def extractSlackHeaders (headers : List (String × String)) :
    Option (String × String) :=
  let timestamp :=
    (headerValue headers "x-slack-request-timestamp").orElse fun _ =>
      (headerValue headers "X-Slack-Request-Timestamp").orElse fun _ =>
        headerValue headers "X-SLACK-REQUEST-TIMESTAMP"
  let signature :=
    (headerValue headers "x-slack-signature").orElse fun _ =>
      (headerValue headers "X-Slack-Signature").orElse fun _ =>
        headerValue headers "X-SLACK-SIGNATURE"
  match timestamp, signature with
  | some t, some s => if t == "" || s == "" then none else some (t, s)
  | _, _ => none

/-- Split a character list on a separator character. -/
def splitOnChar (sep : Char) : List Char → List (List Char)
  | [] => [[]]
  | c :: rest =>
    let r := splitOnChar sep rest
    if c == sep then [] :: r
    else
      match r with
      | [] => [[c]]
      | h :: t => (c :: h) :: t

/-- Hexadecimal digit value. -/
def hexVal (c : Char) : Option Nat :=
  if '0' ≤ c ∧ c ≤ '9' then some (c.toNat - '0'.toNat)
  else if 'a' ≤ c ∧ c ≤ 'f' then some (c.toNat - 'a'.toNat + 10)
  else if 'A' ≤ c ∧ c ≤ 'F' then some (c.toNat - 'A'.toNat + 10)
  else none

/-- `application/x-www-form-urlencoded` component decoding: `+` becomes a
space and `%hh` becomes the character with that code (ill-formed escapes
pass through verbatim). -/
def decodeFormChars : List Char → List Char
  | [] => []
  | '+' :: rest => ' ' :: decodeFormChars rest
  | '%' :: a :: b :: rest =>
    match hexVal a, hexVal b with
    | some x, some y => Char.ofNat (16 * x + y) :: decodeFormChars rest
    | _, _ => '%' :: decodeFormChars (a :: b :: rest)
  | c :: rest => c :: decodeFormChars rest

/-- Split a form segment at its first `=`; a segment with no `=` gets the
empty value. -/
def splitFirstEq : List Char → List Char × List Char
  | [] => ([], [])
  | '=' :: rest => ([], rest)
  | c :: rest =>
    let (k, v) := splitFirstEq rest
    (c :: k, v)

/-- `parseFormUrlEncoded`: iterate the `URLSearchParams` entries of the
body into key/value pairs (empty segments are skipped; later duplicate
keys overwrite earlier ones, which lookup-from-the-right reproduces). -/
def parseFormUrlEncoded (body : String) : List (String × String) :=
  ((splitOnChar '&' body.data).filter (fun seg => !seg.isEmpty)).map fun seg =>
    let (k, v) := splitFirstEq seg
    (String.mk (decodeFormChars k), String.mk (decodeFormChars v))

/-- Lookup with last-occurrence-wins semantics (`result[key] = value` in a
loop). -/
def lookupLast (pairs : List (String × String)) (k : String) : Option String :=
  (pairs.reverse.find? (fun kv => kv.1 == k)).map (fun kv => kv.2)

/-- The fields of a parsed slash-command payload that the gateway reads. -/
structure SlashPayload where
  channel_id : String
  user_id : String
  text : String
  response_url : String
deriving DecidableEq, Repr

/-- URL well-formedness as required by the payload schema for
`response_url`, abstracted to a scheme check (the schema library's exact
URL grammar is an external concern). -/
def isUrlLike (s : String) : Bool :=
  "http://".data.isPrefixOf s.data || "https://".data.isPrefixOf s.data

/-- `SlackSlashCommandSchema.safeParse`: all twelve fields must be present
(every `URLSearchParams` entry is a string) and `response_url` must be a
URL. -/
def parseSlashCommand (pairs : List (String × String)) : Option SlashPayload := do
  let _token ← lookupLast pairs "token"
  let _teamId ← lookupLast pairs "team_id"
  let _teamDomain ← lookupLast pairs "team_domain"
  let channelId ← lookupLast pairs "channel_id"
  let _channelName ← lookupLast pairs "channel_name"
  let userId ← lookupLast pairs "user_id"
  let _userName ← lookupLast pairs "user_name"
  let _command ← lookupLast pairs "command"
  let text ← lookupLast pairs "text"
  let responseUrl ← lookupLast pairs "response_url"
  let _triggerId ← lookupLast pairs "trigger_id"
  let _apiAppId ← lookupLast pairs "api_app_id"
  if isUrlLike responseUrl then
    some { channel_id := channelId, user_id := userId, text := text,
           response_url := responseUrl }
  else
    none

/-- JavaScript `String.prototype.trim`. -/
def jsTrim (s : String) : String :=
  String.mk
    (((s.data.dropWhile Char.isWhitespace).reverse.dropWhile
        Char.isWhitespace).reverse)

/-- The environment variables the gateway reads (`none` models an unset
variable). -/
structure GatewayEnv where
  signingSecretArn : Option String
  botTokenArn : Option String
  allowedChannelId : Option String
  requestsTable : Option String
  generationQueueUrl : Option String
  bedrockModel : Option String := none
deriving DecidableEq, Repr

/-- The channel restriction `if (allowedChannelId && payload.channel_id !==
allowedChannelId)`: an unset or empty (falsy) configured channel disables
the check. -/
def channelBlocked (env : GatewayEnv) (channelId : String) : Bool :=
  match env.allowedChannelId with
  | some allowed => allowed != "" && channelId != allowed
  | none => false

/-- The Slack slash-command webhook handler, faithful to its branch order:
missing headers → 401; missing secret ARNs → 500; failed signature
verification → 401; malformed payload → 400; disallowed channel → 200 with
the channel-restriction message; empty trimmed prompt → 200 with the
empty-prompt message; otherwise create the pending request, enqueue the
generation job and return 200 with the "generating" acknowledgment.  Any
throw after verification (missing table/queue config, failed conditional
insert) is caught and answered with 200 and a "try again" message.
`secretValue` resolves a secret ARN; `freshId` is the minted `uuidv4()`. -/
def slackWebhookHandler (hmacHex : String → String → String)
    (env : GatewayEnv) (secretValue : String → String) (freshId : String)
    (clock : Clock) (event : ApiEvent) (w : World) : ApiResult × World :=
  match extractSlackHeaders event.headers with
  | none => ({ statusCode := 401, body := ResponseBody.errorMissingHeaders }, w)
  | some (timestamp, signature) =>
    match env.signingSecretArn, env.botTokenArn with
    | some secretArn, some _ =>
      let body := event.body.getD ""
      let verification := verifySlackRequest hmacHex (clock.epoch : Int)
        (secretValue secretArn) timestamp body signature
      if !verification.valid then
        ({ statusCode := 401, body := ResponseBody.errorInvalidSignature }, w)
      else
        match parseSlashCommand (parseFormUrlEncoded body) with
        | none => ({ statusCode := 400, body := ResponseBody.errorInvalidPayload }, w)
        | some payload =>
          if channelBlocked env payload.channel_id then
            ({ statusCode := 200, body := ResponseBody.channelRestrictionMessage }, w)
          else
            let prompt := jsTrim payload.text
            if prompt == "" then
              ({ statusCode := 200, body := ResponseBody.emptyPromptMessage }, w)
            else
              match env.requestsTable, env.generationQueueUrl with
              | some _, some _ =>
                let generationRequest : GenerationRequest :=
                  { requestId := freshId
                    userId := payload.user_id
                    channelId := payload.channel_id
                    prompt := prompt
                    enhancedPrompt := ""
                    status := RequestStatus.pending
                    model := env.bedrockModel.getD "titan"
                    responseUrl := payload.response_url
                    createdAt := clock.iso
                    updatedAt := clock.iso
                    ttl := some (clock.epoch + 30 * 24 * 60 * 60) }
                match createRequest w generationRequest with
                | none =>
                  ({ statusCode := 200, body := ResponseBody.tryAgainMessage }, w)
                | some w1 =>
                  let jobMessage : GenerationJobMessage :=
                    { requestId := freshId
                      userId := payload.user_id
                      channelId := payload.channel_id
                      prompt := prompt
                      responseUrl := payload.response_url }
                  ({ statusCode := 200, body := ResponseBody.generatingMessage prompt },
                   { w1 with generationQueue := w1.generationQueue ++ [jobMessage] })
              | _, _ =>
                ({ statusCode := 200, body := ResponseBody.tryAgainMessage }, w)
    | _, _ => ({ statusCode := 500, body := ResponseBody.errorServerConfig }, w)

/-! ## General lemmas about the store primitives -/

theorem find?_map_if {α : Type} (p : α → Bool) (f : α → α)
    (hf : ∀ x, p (f x) = p x) (l : List α) :
    (l.map (fun x => if p x then f x else x)).find? p = (l.find? p).map f := by
  induction l with
  | nil => rfl
  | cons a t ih =>
    by_cases hpa : p a = true
    · simp only [List.map_cons, if_pos hpa]
      rw [List.find?_cons_of_pos _ (by rw [hf]; exact hpa),
        List.find?_cons_of_pos _ hpa, Option.map_some']
    · have hpa' : p a = false := by
        revert hpa; cases p a <;> simp
      simp only [List.map_cons, if_neg hpa]
      rw [List.find?_cons_of_neg _ (by simp [hpa']),
        List.find?_cons_of_neg _ (by simp [hpa']), ih]

theorem mem_map_if {α : Type} (p : α → Bool) (f : α → α) (l : List α) (x : α)
    (hx : x ∈ l.map (fun y => if p y then f y else y)) (hpx : p x = true) :
    ∃ y, y ∈ l ∧ p y = true ∧ x = f y := by
  obtain ⟨y, hy, hxy⟩ := List.mem_map.mp hx
  by_cases hpy : p y = true
  · exact ⟨y, hy, hpy, by rw [← hxy, if_pos hpy]⟩
  · exfalso
    rw [if_neg hpy] at hxy
    rw [← hxy] at hpx
    exact hpy hpx

theorem map_if_id {α : Type} (p : α → Bool) (f : α → α) (l : List α)
    (h : ∀ x ∈ l, p x = true → f x = x) :
    l.map (fun x => if p x then f x else x) = l := by
  conv_rhs => rw [← List.map_id l]
  exact List.map_congr_left (fun x hx => by
    by_cases hpx : p x = true
    · rw [if_pos hpx, h x hx hpx]; rfl
    · rw [if_neg hpx]; rfl)

theorem s3Get_s3Put_self (s3 : List (String × String)) (k v : String) :
    s3Get (s3Put s3 k v) k = some v := by
  unfold s3Get s3Put
  rw [List.find?_append]
  have h1 : (s3.filter (fun kv => kv.1 != k)).find? (fun kv => kv.1 == k) = none := by
    rw [List.find?_eq_none]
    intro a ha
    have := (List.mem_filter.mp ha).2
    simp only [bne_iff_ne, ne_eq] at this
    simp [this]
  rw [h1]
  simp

theorem s3Put_s3Put_self (s3 : List (String × String)) (k v : String) :
    s3Put (s3Put s3 k v) k v = s3Put s3 k v := by
  unfold s3Put
  rw [List.filter_append, List.filter_filter]
  simp

theorem commitArtifact_requestStatusLog (requestId : String) (clock : Clock)
    (w : World) (p : String × String) :
    (commitArtifact requestId clock w p).requestStatusLog = w.requestStatusLog := rfl

theorem commitArtifact_webhookLog (requestId : String) (clock : Clock)
    (w : World) (p : String × String) :
    (commitArtifact requestId clock w p).webhookLog = w.webhookLog := rfl

theorem commitArtifacts_requestStatusLog (requestId : String) (clock : Clock)
    (freshIds images : List String) (w : World) :
    (commitArtifacts requestId clock freshIds images w).requestStatusLog
      = w.requestStatusLog := by
  unfold commitArtifacts
  generalize freshIds.zip images = l
  induction l generalizing w with
  | nil => rfl
  | cons a t ih => rw [List.foldl_cons, ih, commitArtifact_requestStatusLog]

theorem commitArtifacts_webhookLog (requestId : String) (clock : Clock)
    (freshIds images : List String) (w : World) :
    (commitArtifacts requestId clock freshIds images w).webhookLog
      = w.webhookLog := by
  unfold commitArtifacts
  generalize freshIds.zip images = l
  induction l generalizing w with
  | nil => rfl
  | cons a t ih => rw [List.foldl_cons, ih, commitArtifact_webhookLog]

/-! ## C1: request-status monotonicity -/

/-- Position of a request status along the lifecycle order
pending → generating → {completed, failed}. -/
def statusRank : RequestStatus → Nat
  | RequestStatus.pending => 0
  | RequestStatus.generating => 1
  | RequestStatus.completed => 2
  | RequestStatus.failed => 2

/-- A consecutive pair of status writes moves backward when the later one
sits strictly earlier in the lifecycle order. -/
def movesBackward (a b : RequestStatus) : Bool :=
  statusRank b < statusRank a

/-- Whether an observed sequence of status values contains a backward
move. -/
def hasBackwardMove : List RequestStatus → Bool
  | [] => false
  | [_] => false
  | a :: b :: rest => movesBackward a b || hasBackwardMove (b :: rest)

/-- Scenario for C1: a request created as `pending`, whose generation job
fails on first delivery and is then redelivered and succeeds. -/
def c1Request : GenerationRequest :=
  { requestId := "r1", userId := "U1", channelId := "C1", prompt := "p",
    enhancedPrompt := "", status := RequestStatus.pending, model := "titan",
    responseUrl := "https://hooks/1", createdAt := "t0", updatedAt := "t0" }

/-- The generation job message of the C1 scenario. -/
def c1Job : GenerationJobMessage :=
  { requestId := "r1", userId := "U1", channelId := "C1", prompt := "p",
    responseUrl := "https://hooks/1" }

/-- The observed sequence of status values written for request `r1` in the
C1 scenario: creation, a failing processing attempt, and the re-processing
of the redelivered job. -/
def c1Trace : List RequestStatus :=
  match createRequest World.empty c1Request with
  | none => []
  | some w1 =>
    let w2 := (processGenerationJob w1 c1Job (GenOutcome.providerThrow "boom")
      [] true ⟨"t1", 100⟩).1
    let w3 := (processGenerationJob w2 c1Job
      (GenOutcome.success ["b1", "b2", "b3"]) ["i1", "i2", "i3"] false
      ⟨"t2", 200⟩).1
    w3.requestStatusLog.map Prod.snd

/-- C1 counterexample: re-processing a redelivered `GenerationJob` for a
request already in `failed` status writes `generating` again — the
observed write sequence for `r1` is
pending, generating, failed, generating, completed, which contains the
backward move failed → generating.  `updateRequestStatus` is an
unconditional update, so nothing prevents this. -/
theorem claim_C1_counterexample :
    c1Trace = [RequestStatus.pending, RequestStatus.generating,
      RequestStatus.failed, RequestStatus.generating, RequestStatus.completed]
    ∧ hasBackwardMove c1Trace = true
    ∧ movesBackward RequestStatus.failed RequestStatus.generating = true := by
  decide

/-- C1 (amended): within a single execution of `processGenerationJob`, the
status writes for the job's request are exactly `generating` followed by
one of the terminal statuses `completed`/`failed` — forward along
pending → generating → {completed, failed}; backward moves arise only
across executions, when a redelivered job is re-processed (see the
counterexample). -/
theorem claim_C1_amended (w : World) (job : GenerationJobMessage)
    (outcome : GenOutcome) (freshIds : List String) (notifyFails : Bool)
    (clock : Clock) :
    ∃ t : RequestStatus,
      (processGenerationJob w job outcome freshIds notifyFails clock).1.requestStatusLog
        = w.requestStatusLog
          ++ [(job.requestId, RequestStatus.generating), (job.requestId, t)]
      ∧ (t = RequestStatus.completed ∨ t = RequestStatus.failed)
      ∧ statusRank RequestStatus.generating ≤ statusRank t := by
  cases outcome with
  | success images =>
    refine ⟨RequestStatus.completed, ?_, Or.inl rfl, by decide⟩
    simp [processGenerationJob, updateRequestStatus,
      commitArtifacts_requestStatusLog]
  | providerThrow e =>
    refine ⟨RequestStatus.failed, ?_, Or.inr rfl, by decide⟩
    cases notifyFails <;>
      simp [processGenerationJob, attemptFailureNotice, updateRequestStatus]
  | commitThrow okImages e =>
    refine ⟨RequestStatus.failed, ?_, Or.inr rfl, by decide⟩
    cases notifyFails <;>
      simp [processGenerationJob, attemptFailureNotice, updateRequestStatus,
        commitArtifacts_requestStatusLog]

/-! ## C7: generation worker failure path -/

/-- C7: whenever the provider call or an artifact commit throws,
`processGenerationJob` writes status `failed` (after the initial
`generating` write), attempts the failure notification — whose own failure
is swallowed: the webhook post appears exactly when the notification does
not throw, and in either case the raised error is unchanged — and
re-raises the original error `e`, so the queue's retry/DLQ mechanism
engages. -/
theorem claim_C7 (w : World) (job : GenerationJobMessage)
    (outcome : GenOutcome) (freshIds okImages : List String)
    (notifyFails : Bool) (clock : Clock) (e : String)
    (h : outcome = GenOutcome.providerThrow e
       ∨ outcome = GenOutcome.commitThrow okImages e) :
    (processGenerationJob w job outcome freshIds notifyFails clock).2 = some e
    ∧ (processGenerationJob w job outcome freshIds notifyFails clock).1.requestStatusLog
        = w.requestStatusLog
          ++ [(job.requestId, RequestStatus.generating),
              (job.requestId, RequestStatus.failed)]
    ∧ (processGenerationJob w job outcome freshIds notifyFails clock).1.webhookLog
        = w.webhookLog ++ (if notifyFails then [] else [job.responseUrl]) := by
  rcases h with rfl | rfl <;>
    cases notifyFails <;>
      simp [processGenerationJob, attemptFailureNotice, updateRequestStatus,
        commitArtifacts_requestStatusLog, commitArtifacts_webhookLog]

/-- C7 witness: a provider throw with a failing notification — the
original error is re-raised, the status writes are generating then failed,
and no webhook post is recorded. -/
theorem claim_C7_witness :
    (processGenerationJob World.empty
      ⟨"r7", "U7", "C7", "p", "https://hooks/7"⟩
      (GenOutcome.providerThrow "throttled") [] true ⟨"t1", 5⟩).2
        = some "throttled"
    ∧ (processGenerationJob World.empty
        ⟨"r7", "U7", "C7", "p", "https://hooks/7"⟩
        (GenOutcome.providerThrow "throttled") [] true ⟨"t1", 5⟩).1.requestStatusLog
        = World.empty.requestStatusLog
          ++ [("r7", RequestStatus.generating), ("r7", RequestStatus.failed)]
    ∧ (processGenerationJob World.empty
        ⟨"r7", "U7", "C7", "p", "https://hooks/7"⟩
        (GenOutcome.providerThrow "throttled") [] true ⟨"t1", 5⟩).1.webhookLog
        = World.empty.webhookLog ++ (if true then [] else ["https://hooks/7"]) :=
  claim_C7 World.empty ⟨"r7", "U7", "C7", "p", "https://hooks/7"⟩
    (GenOutcome.providerThrow "throttled") [] [] true ⟨"t1", 5⟩ "throttled"
    (Or.inl rfl)

/-! ## C9: duplicate image records under redelivery -/

/-- The request of the C9 scenario. -/
def c9Request : GenerationRequest :=
  { requestId := "r9", userId := "U9", channelId := "C9", prompt := "p9",
    enhancedPrompt := "", status := RequestStatus.pending, model := "titan",
    responseUrl := "https://hooks/9", createdAt := "t0", updatedAt := "t0" }

/-- The generation job of the C9 scenario. -/
def c9Job : GenerationJobMessage :=
  { requestId := "r9", userId := "U9", channelId := "C9", prompt := "p9",
    responseUrl := "https://hooks/9" }

/-- C9 scenario: the request is created, its job is processed successfully
(3 artifacts committed under fresh image ids), and the same job is then
redelivered and processed again — each attempt minting fresh image ids. -/
def c9Final : Option World :=
  (createRequest World.empty c9Request).map fun w1 =>
    let w2 := (processGenerationJob w1 c9Job
      (GenOutcome.success ["b1", "b2", "b3"]) ["i1", "i2", "i3"] false
      ⟨"t1", 100⟩).1
    (processGenerationJob w2 c9Job
      (GenOutcome.success ["b1", "b2", "b3"]) ["i4", "i5", "i6"] false
      ⟨"t2", 200⟩).1

/-- C9: `createImage` is an unconditional put (re-putting an existing
composite key succeeds, merely overwriting it), while `createRequest`
refuses a duplicate `requestId`; each processing attempt mints fresh image
ids, so after a redelivered job is re-processed the request `r9` owns 6
`GeneratedImage` records — more than the fixed image count of 3. -/
theorem claim_C9 :
    c9Final.map (fun w => (getImagesByRequest w "r9").length) = some 6
    ∧ 3 < 6
    ∧ c9Final.map (fun w => createRequest w c9Request) = some none
    ∧ c9Final.map (fun w =>
        (createImage w
          { imageId := "i1", requestId := "r9", s3Key := "temp/r9/i1.png",
            status := ImageStatus.generated, createdAt := "t3" }).images.length)
        = some 6 := by
  decide

/-! ## C2: batch keep/discard and terminal-status skipping -/

theorem updateImageStatus_imageStatusLog (w : World) (i r : String)
    (st : ImageStatus) (ep : Nat) :
    (updateImageStatus w i r st ep).imageStatusLog
      = w.imageStatusLog ++ [(i, r, st)] := rfl

theorem postWebhook_imageStatusLog (w : World) (ru : String) :
    (postWebhook w ru).imageStatusLog = w.imageStatusLog := rfl

theorem keepAllGo_imageStatusLog (requestId userId : String) (clock : Clock)
    (imgs : List GeneratedImage) :
    ∀ w w' : World, keepAllGo requestId userId clock imgs w = some w' →
      w'.imageStatusLog = w.imageStatusLog
        ++ (imgs.filter (fun i => i.status == ImageStatus.generated)).map
            (fun i => (i.imageId, requestId, ImageStatus.kept)) := by
  induction imgs with
  | nil =>
    intro w w' h
    simp only [keepAllGo, Option.some.injEq] at h
    subst h
    simp
  | cons image rest ih =>
    intro w w' h
    rw [keepAllGo] at h
    cases hgen : image.status == ImageStatus.generated with
    | false =>
      rw [if_pos (by simp [bne, hgen])] at h
      rw [ih w w' h]
      simp [hgen]
    | true =>
      rw [if_neg (by simp [bne, hgen])] at h
      cases hcp : copyImage w.s3 image.s3Key
          (buildSavedImageKey userId requestId image.imageId) with
      | none =>
        simp only [hcp] at h
        exact Option.noConfusion h
      | some s3' =>
        simp only [hcp] at h
        rw [ih _ w' h]
        simp [updateImageStatus, updateImageS3Key, hgen]

theorem discardAllGo_imageStatusLog (requestId : String) (clock : Clock)
    (imgs : List GeneratedImage) :
    ∀ w : World, (discardAllGo requestId clock imgs w).imageStatusLog
      = w.imageStatusLog
        ++ (imgs.filter (fun i => i.status != ImageStatus.discarded)).map
            (fun i => (i.imageId, requestId, ImageStatus.discarded)) := by
  induction imgs with
  | nil => intro w; simp [discardAllGo]
  | cons image rest ih =>
    intro w
    rw [discardAllGo]
    cases hds : image.status == ImageStatus.discarded with
    | true =>
      rw [if_pos (by simp [hds])]
      rw [ih w]
      simp [bne, hds]
    | false =>
      rw [if_neg (by simp [hds])]
      rw [ih _]
      simp [updateImageStatus, bne, hds]

/-- C2 counterexample world: one image already in `kept` status. -/
def c2cexWorld : World :=
  { World.empty with
    images := [{ imageId := "a", requestId := "r", s3Key := "saved/u/r/a.png",
                 status := ImageStatus.kept, createdAt := "t0" }]
    s3 := [("saved/u/r/a.png", "A")] }

/-- C2 counterexample: `handleDiscardAll` does **not** leave an already-kept
image untouched — it skips only images already in `discarded` status, so on
a request whose sole image is `kept` it performs a status transition and
the image ends up `discarded`. -/
theorem claim_C2_counterexample :
    (handleDiscardAll c2cexWorld "r" "https://hooks/2x" ⟨"t1", 60⟩).imageStatusLog
      = [("a", "r", ImageStatus.discarded)]
    ∧ (getImage (handleDiscardAll c2cexWorld "r" "https://hooks/2x" ⟨"t1", 60⟩)
        "a" "r").map GeneratedImage.status = some ImageStatus.discarded := by
  decide

theorem handleKeepAll_imageStatusLog (w : World)
    (requestId userId responseUrl : String) (clock : Clock) (w' : World)
    (h : handleKeepAll w requestId userId responseUrl clock = some w') :
    w'.imageStatusLog = w.imageStatusLog
      ++ ((getImagesByRequest w requestId).filter
            (fun i => i.status == ImageStatus.generated)).map
          (fun i => (i.imageId, requestId, ImageStatus.kept)) := by
  rw [handleKeepAll] at h
  by_cases hlen : ((getImagesByRequest w requestId).length == 0) = true
  · rw [if_pos hlen] at h
    exact absurd h (by simp)
  · rw [if_neg hlen] at h
    cases hgo : keepAllGo requestId userId clock (getImagesByRequest w requestId) w with
    | none => rw [hgo] at h; exact absurd h (by simp)
    | some w3 =>
      rw [hgo] at h
      simp only [Option.map_some', Option.some.injEq] at h
      subst h
      rw [postWebhook_imageStatusLog]
      exact keepAllGo_imageStatusLog requestId userId clock _ w w3 hgo

theorem handleDiscardAll_imageStatusLog (w : World)
    (requestId responseUrl : String) (clock : Clock) :
    (handleDiscardAll w requestId responseUrl clock).imageStatusLog
      = w.imageStatusLog
        ++ ((getImagesByRequest w requestId).filter
              (fun i => i.status != ImageStatus.discarded)).map
            (fun i => (i.imageId, requestId, ImageStatus.discarded)) := by
  rw [handleDiscardAll, postWebhook_imageStatusLog]
  exact discardAllGo_imageStatusLog requestId clock _ w

/-- C2 (amended): `keep_all` applies the per-image keep logic exactly to
the images whose status is `generated`, skipping every image already in a
terminal status — in particular, `keep_all` on a request with one of three
images already discarded performs exactly two status transitions; but
`discard_all` skips only images already `discarded` and does transition
already-`kept` images to `discarded`. -/
theorem claim_C2_amended (w : World) (requestId userId responseUrl : String)
    (clock : Clock) :
    (∀ w', handleKeepAll w requestId userId responseUrl clock = some w' →
      w'.imageStatusLog = w.imageStatusLog
        ++ ((getImagesByRequest w requestId).filter
              (fun i => i.status == ImageStatus.generated)).map
            (fun i => (i.imageId, requestId, ImageStatus.kept)))
    ∧ (handleDiscardAll w requestId responseUrl clock).imageStatusLog
        = w.imageStatusLog
          ++ ((getImagesByRequest w requestId).filter
                (fun i => i.status != ImageStatus.discarded)).map
              (fun i => (i.imageId, requestId, ImageStatus.discarded)) :=
  ⟨fun w' h => handleKeepAll_imageStatusLog w requestId userId responseUrl clock w' h,
   handleDiscardAll_imageStatusLog w requestId responseUrl clock⟩

/-- C2 witness world: three images of request `r`, one already discarded. -/
def c2World : World :=
  { World.empty with
    images :=
      [{ imageId := "a", requestId := "r", s3Key := "temp/r/a.png",
         status := ImageStatus.generated, createdAt := "t0" },
       { imageId := "b", requestId := "r", s3Key := "temp/r/b.png",
         status := ImageStatus.discarded, createdAt := "t0" },
       { imageId := "c", requestId := "r", s3Key := "temp/r/c.png",
         status := ImageStatus.generated, createdAt := "t0" }]
    s3 := [("temp/r/a.png", "A"), ("temp/r/b.png", "B"), ("temp/r/c.png", "C")] }

/-- The world after `keep_all` on the C2 witness world. -/
def c2Kept : World :=
  (handleKeepAll c2World "r" "u" "https://hooks/2" ⟨"t1", 50⟩).getD World.empty

/-- C2 witness: `keep_all` on a request with one of three images already
discarded performs exactly two status transitions (both to `kept`), and
the discarded image is untouched. -/
theorem claim_C2_amended_witness :
    c2Kept.imageStatusLog
      = [("a", "r", ImageStatus.kept), ("c", "r", ImageStatus.kept)]
    ∧ c2Kept.imageStatusLog.length = 2 := by
  have h := (claim_C2_amended c2World "r" "u" "https://hooks/2" ⟨"t1", 50⟩).1
    c2Kept (by decide)
  have h2 : c2Kept.imageStatusLog
      = [("a", "r", ImageStatus.kept), ("c", "r", ImageStatus.kept)] :=
    h.trans (by decide)
  exact ⟨h2, by simp [h2]⟩

/-! ## C3: image status transitions under Action Worker operations -/

theorem handleKeepImage_imageStatusLog (w : World)
    (imageId requestId userId responseUrl : String) (clock : Clock) (w' : World)
    (h : handleKeepImage w imageId requestId userId responseUrl clock = some w') :
    w'.imageStatusLog = w.imageStatusLog ++ [(imageId, requestId, ImageStatus.kept)] := by
  rw [handleKeepImage] at h
  cases himg : getImage w imageId requestId with
  | none => rw [himg] at h; exact Option.noConfusion h
  | some image =>
    rw [himg] at h
    cases hcp : copyImage w.s3 image.s3Key
        (buildSavedImageKey userId requestId imageId) with
    | none => simp only [hcp] at h; exact Option.noConfusion h
    | some s3' =>
      simp only [hcp, Option.some.injEq] at h
      subst h
      rfl

theorem handleRegenerateAll_effects (w : World)
    (userId channelId originalPrompt responseUrl freshId bedrockModel : String)
    (clock : Clock) (w' : World)
    (h : handleRegenerateAll w userId channelId originalPrompt responseUrl
      freshId bedrockModel clock = some w') :
    w'.imageStatusLog = w.imageStatusLog ∧ w'.images = w.images := by
  rw [handleRegenerateAll] at h
  cases hcr : createRequest w
      { requestId := freshId, userId := userId, channelId := channelId,
        prompt := originalPrompt, enhancedPrompt := "",
        status := RequestStatus.pending, model := bedrockModel,
        responseUrl := responseUrl, createdAt := clock.iso,
        updatedAt := clock.iso,
        ttl := some (clock.epoch + 30 * 24 * 60 * 60) } with
  | none => rw [hcr] at h; exact Option.noConfusion h
  | some w1 =>
    rw [hcr] at h
    simp only [Option.some.injEq] at h
    subst h
    rw [createRequest] at hcr
    split at hcr
    · exact Option.noConfusion hcr
    · simp only [Option.some.injEq] at hcr
      subst hcr
      exact ⟨rfl, rfl⟩

/-- C3 counterexample world: the image is already `discarded`. -/
def c3World : World :=
  { World.empty with
    images := [{ imageId := "i1", requestId := "r", s3Key := "temp/r/i1.png",
                 status := ImageStatus.discarded, createdAt := "t0",
                 ttl := some 604800 }]
    s3 := [("temp/r/i1.png", "B")] }

/-- C3 counterexample: `handleKeepImage` never checks the record's current
status, so `keep` on an already-discarded image *does* make it `kept` —
the terminal statuses are not sinks under individual keep/discard
operations. -/
theorem claim_C3_counterexample :
    ((handleKeepImage c3World "i1" "r" "u" "https://hooks/3" ⟨"t1", 9⟩).bind
        (fun w' => (getImage w' "i1" "r").map GeneratedImage.status))
      = some ImageStatus.kept := by
  decide

/-- C3 (amended): every image-status value any Action Worker operation
(keep, discard, keep_all, discard_all, regenerate_all) writes is `kept` or
`discarded` — no operation ever writes `generated`, so a record that has
left `generated` never re-enters it; however `keep` moves an
already-discarded image to `kept` and `discard` moves an already-kept
image to `discarded` (see the counterexample). -/
theorem claim_C3_amended (w : World) (op : ActionOp)
    (requestId userId channelId responseUrl freshId bedrockModel : String)
    (clock : Clock) (w' : World)
    (h : processActionJob w op requestId userId channelId responseUrl freshId
      bedrockModel clock = some w') :
    ∃ written, w'.imageStatusLog = w.imageStatusLog ++ written
      ∧ ∀ e ∈ written,
          e.2.2 = ImageStatus.kept ∨ e.2.2 = ImageStatus.discarded := by
  cases op with
  | keep imageId =>
    simp only [processActionJob] at h
    refine ⟨[(imageId, requestId, ImageStatus.kept)],
      handleKeepImage_imageStatusLog w imageId requestId userId responseUrl
        clock w' h, ?_⟩
    simp
  | discard imageId =>
    simp only [processActionJob, Option.some.injEq] at h
    subst h
    exact ⟨[(imageId, requestId, ImageStatus.discarded)], rfl, by simp⟩
  | keepAll =>
    simp only [processActionJob] at h
    refine ⟨_, handleKeepAll_imageStatusLog w requestId userId responseUrl
      clock w' h, ?_⟩
    intro e he
    simp only [List.mem_map] at he
    obtain ⟨i, _, rfl⟩ := he
    exact Or.inl rfl
  | discardAll =>
    simp only [processActionJob, Option.some.injEq] at h
    subst h
    refine ⟨_, handleDiscardAll_imageStatusLog w requestId responseUrl clock, ?_⟩
    intro e he
    simp only [List.mem_map] at he
    obtain ⟨i, _, rfl⟩ := he
    exact Or.inr rfl
  | regenerateAll originalPrompt =>
    simp only [processActionJob] at h
    refine ⟨[], ?_, by simp⟩
    rw [(handleRegenerateAll_effects w userId channelId originalPrompt
      responseUrl freshId bedrockModel clock w' h).1]
    simp

/-- C3 witness world: one `generated` image. -/
def c3dWorld : World :=
  { World.empty with
    images := [{ imageId := "a", requestId := "r", s3Key := "temp/r/a.png",
                 status := ImageStatus.generated, createdAt := "t0" }]
    s3 := [("temp/r/a.png", "A")] }

/-- The world after a `discard` action job on the C3 witness world. -/
def c3dOut : World :=
  (processActionJob c3dWorld (ActionOp.discard "a") "r" "u" "C"
    "https://hooks/3w" "f" "titan" ⟨"t1", 4⟩).getD World.empty

/-- C3 witness: a concrete `discard` action job only appends terminal
status writes. -/
theorem claim_C3_amended_witness :
    ∃ written, c3dOut.imageStatusLog = c3dWorld.imageStatusLog ++ written
      ∧ ∀ e ∈ written,
          e.2.2 = ImageStatus.kept ∨ e.2.2 = ImageStatus.discarded :=
  claim_C3_amended c3dWorld (ActionOp.discard "a") "r" "u" "C"
    "https://hooks/3w" "f" "titan" ⟨"t1", 4⟩ c3dOut (by decide)

/-! ## C8: regenerate_all creates a sibling request -/

/-- C8: on a successful `regenerate_all` for an existing original request,
the handler creates a `GenerationRequest` under the freshly minted id —
necessarily distinct from the original id, because the conditional insert
succeeded while the original record exists — with status `pending` and
prompt equal to the carried `originalPrompt`, and enqueues a
`GenerationJob` for the new id; the original request's record, all
`GeneratedImage` records, and the image-status log are untouched. -/
theorem claim_C8 (w : World)
    (origId userId channelId originalPrompt responseUrl freshId bedrockModel : String)
    (clock : Clock) (orig : GenerationRequest) (w' : World)
    (hOrig : getRequest w origId = some orig)
    (h : handleRegenerateAll w userId channelId originalPrompt responseUrl
      freshId bedrockModel clock = some w') :
    freshId ≠ origId
    ∧ (getRequest w' freshId).map (fun r => (r.status, r.prompt))
        = some (RequestStatus.pending, originalPrompt)
    ∧ getRequest w' origId = getRequest w origId
    ∧ w'.images = w.images
    ∧ w'.imageStatusLog = w.imageStatusLog
    ∧ w'.generationQueue = w.generationQueue
        ++ [{ requestId := freshId, userId := userId, channelId := channelId,
              prompt := originalPrompt, responseUrl := responseUrl }] := by
  rw [handleRegenerateAll] at h
  cases hcr : createRequest w
      { requestId := freshId, userId := userId, channelId := channelId,
        prompt := originalPrompt, enhancedPrompt := "",
        status := RequestStatus.pending, model := bedrockModel,
        responseUrl := responseUrl, createdAt := clock.iso,
        updatedAt := clock.iso,
        ttl := some (clock.epoch + 30 * 24 * 60 * 60) } with
  | none => rw [hcr] at h; exact Option.noConfusion h
  | some w1 =>
    rw [hcr] at h
    simp only [Option.some.injEq] at h
    subst h
    rw [createRequest] at hcr
    by_cases hany : (w.requests.any (fun q => q.requestId == freshId)) = true
    · rw [if_pos hany] at hcr
      exact Option.noConfusion hcr
    · rw [if_neg hany] at hcr
      simp only [Option.some.injEq] at hcr
      subst hcr
      have hnone : ∀ q ∈ w.requests, ¬(q.requestId == freshId) = true :=
        List.any_eq_false.mp (Bool.not_eq_true _ ▸ hany)
      rw [getRequest] at hOrig
      have hmem := List.mem_of_find?_eq_some hOrig
      have hpred := List.find?_some hOrig
      refine ⟨?_, ?_, ?_, rfl, rfl, rfl⟩
      · intro heq
        apply hnone orig hmem
        rw [heq]
        exact hpred
      · show ((w.requests ++ [_]).find? _).map _ = _
        rw [List.find?_append, List.find?_eq_none.mpr hnone]
        simp
      · show (w.requests ++ [_]).find? _ = w.requests.find? _
        rw [List.find?_append, hOrig]
        rfl

/-- C8 witness world: a completed original request with three images. -/
def c8World : World :=
  { World.empty with
    requests := [{ requestId := "r0", userId := "U", channelId := "C",
                   prompt := "X", enhancedPrompt := "X plus",
                   status := RequestStatus.completed, model := "titan",
                   responseUrl := "https://hooks/8", createdAt := "t0",
                   updatedAt := "t1" }]
    images := [{ imageId := "a", requestId := "r0", s3Key := "temp/r0/a.png",
                 status := ImageStatus.generated, createdAt := "t0" }] }

/-- The world after `regenerate_all` on the C8 witness world. -/
def c8Out : World :=
  (handleRegenerateAll c8World "U" "C" "X" "https://hooks/8" "rNew" "titan"
    ⟨"t2", 500⟩).getD World.empty

/-- C8 witness: the concrete regenerate scenario — fresh id distinct from
`r0`, new pending record with the original prompt, a job enqueued for the
new id, and the original's records unchanged. -/
theorem claim_C8_witness :
    "rNew" ≠ "r0"
    ∧ (getRequest c8Out "rNew").map (fun r => (r.status, r.prompt))
        = some (RequestStatus.pending, "X")
    ∧ getRequest c8Out "r0" = getRequest c8World "r0"
    ∧ c8Out.images = c8World.images
    ∧ c8Out.imageStatusLog = c8World.imageStatusLog
    ∧ c8Out.generationQueue = c8World.generationQueue
        ++ [{ requestId := "rNew", userId := "U", channelId := "C",
              prompt := "X", responseUrl := "https://hooks/8" }] :=
  claim_C8 c8World "r0" "U" "C" "X" "https://hooks/8" "rNew" "titan"
    ⟨"t2", 500⟩
    { requestId := "r0", userId := "U", channelId := "C",
      prompt := "X", enhancedPrompt := "X plus",
      status := RequestStatus.completed, model := "titan",
      responseUrl := "https://hooks/8", createdAt := "t0", updatedAt := "t1" }
    c8Out (by decide) (by decide)

/-! ## C5: idempotence of the keep handler -/

theorem getImage_postWebhook (x : World) (ru i r : String) :
    getImage (postWebhook x ru) i r = getImage x i r := rfl

theorem getImage_updateImageStatus (x : World) (i r : String)
    (st : ImageStatus) (ep : Nat) :
    getImage (updateImageStatus x i r st ep) i r
      = (getImage x i r).map (fun img =>
          { img with
            status := st
            ttl := if st == ImageStatus.discarded
                   then some (ep + 7 * 24 * 60 * 60)
                   else img.ttl }) := by
  unfold getImage updateImageStatus
  dsimp only
  refine find?_map_if _ _ ?_ _
  intro y
  rfl

theorem getImage_updateImageS3Key (x : World) (i r k : String) :
    getImage (updateImageS3Key x i r k) i r
      = (getImage x i r).map (fun img => { img with s3Key := k }) := by
  unfold getImage updateImageS3Key
  dsimp only
  refine find?_map_if _ _ ?_ _
  intro y
  rfl

theorem images_postWebhook (x : World) (ru : String) :
    (postWebhook x ru).images = x.images := rfl

theorem s3_postWebhook (x : World) (ru : String) :
    (postWebhook x ru).s3 = x.s3 := rfl

theorem s3_updateImageStatus (x : World) (i r : String) (st : ImageStatus)
    (ep : Nat) : (updateImageStatus x i r st ep).s3 = x.s3 := rfl

theorem s3_updateImageS3Key (x : World) (i r k : String) :
    (updateImageS3Key x i r k).s3 = x.s3 := rfl

/-- Characterization of a successful `handleKeepImage` run: when the record
exists and its artifact bytes are present at its current key, the handler
copies to the saved key, rewrites the record's `s3Key`, sets status `kept`,
and pushes the updated view. -/
theorem handleKeepImage_eq (w : World)
    (imageId requestId userId responseUrl : String) (clock : Clock)
    (image : GeneratedImage) (c : String)
    (himg : getImage w imageId requestId = some image)
    (hsg : s3Get w.s3 image.s3Key = some c) :
    handleKeepImage w imageId requestId userId responseUrl clock
      = some (postWebhook
          (updateImageStatus
            (updateImageS3Key
              { w with s3 := (s3Put w.s3
                  (buildSavedImageKey userId requestId imageId) c) }
              imageId requestId (buildSavedImageKey userId requestId imageId))
            imageId requestId ImageStatus.kept clock.epoch)
          responseUrl) := by
  rw [handleKeepImage, himg]
  simp only [copyImage, hsg]

/-- C5 counterexample: the saved-scope storage key the keep handler writes
is `saved/{userId}/{requestId}/{imageId}.png` — with a `.png` suffix — not
the bare `saved/{userId}/{requestId}/{imageId}` stated by the claim. -/
theorem claim_C5_counterexample :
    buildSavedImageKey "u" "r" "i" = "saved/u/r/i.png"
    ∧ buildSavedImageKey "u" "r" "i" ≠ "saved/u/r/i" := by
  decide

/-- C5 (amended): for every `(imageId, requestId)` whose `GeneratedImage`
record exists (and whose artifact bytes are retrievable, witnessed by the
first run succeeding), running the keep handler twice in sequence leaves
the record with the same terminal status `kept` and the same storage key
`saved/{userId}/{requestId}/{imageId}.png` as running it once; the second
run is a no-op in effect: it succeeds and leaves both the image table and
the object store exactly as the first run left them. -/
theorem claim_C5_amended (w : World)
    (imageId requestId userId responseUrl : String) (clock1 clock2 : Clock)
    (w1 : World)
    (h : handleKeepImage w imageId requestId userId responseUrl clock1 = some w1) :
    ∃ w2, handleKeepImage w1 imageId requestId userId responseUrl clock2 = some w2
      ∧ w2.images = w1.images
      ∧ w2.s3 = w1.s3
      ∧ (getImage w1 imageId requestId).map (fun i => (i.status, i.s3Key))
          = some (ImageStatus.kept, buildSavedImageKey userId requestId imageId) := by
  rw [handleKeepImage] at h
  cases himg : getImage w imageId requestId with
  | none => rw [himg] at h; exact Option.noConfusion h
  | some image =>
    rw [himg] at h
    simp only [copyImage] at h
    cases hsg : s3Get w.s3 image.s3Key with
    | none => simp only [hsg] at h; exact Option.noConfusion h
    | some c =>
      simp only [hsg, Option.some.injEq] at h
      -- h : postWebhook (updateImageStatus (updateImageS3Key
      --       { w with s3 := s3Put w.s3 dest c } ...) ...) responseUrl = w1
      have hgi1 : getImage w1 imageId requestId
          = some { image with
                   s3Key := buildSavedImageKey userId requestId imageId
                   status := ImageStatus.kept } := by
        rw [← h, getImage_postWebhook, getImage_updateImageStatus,
          getImage_updateImageS3Key,
          show getImage
              { w with s3 := (s3Put w.s3
                  (buildSavedImageKey userId requestId imageId) c) }
              imageId requestId = getImage w imageId requestId from rfl,
          himg]
        rfl
      have hs3w1 : w1.s3
          = s3Put w.s3 (buildSavedImageKey userId requestId imageId) c := by
        rw [← h]; rfl
      have hw1images : w1.images
          = (w.images.map (fun img =>
              if imageKeyEq imageId requestId img then
                { img with s3Key := buildSavedImageKey userId requestId imageId }
              else img)).map (fun img =>
              if imageKeyEq imageId requestId img then
                { img with
                  status := ImageStatus.kept
                  ttl := if ImageStatus.kept == ImageStatus.discarded
                         then some (clock1.epoch + 7 * 24 * 60 * 60)
                         else img.ttl }
              else img) := by
        rw [← h]; rfl
      have hmem : ∀ x ∈ w1.images, imageKeyEq imageId requestId x = true →
          x.s3Key = buildSavedImageKey userId requestId imageId
          ∧ x.status = ImageStatus.kept := by
        intro x hx hpx
        rw [hw1images] at hx
        obtain ⟨y, hy, hpy, rfl⟩ := mem_map_if _ _ _ _ hx hpx
        obtain ⟨z, hz, hpz, rfl⟩ := mem_map_if _ _ _ _ hy hpy
        exact ⟨rfl, rfl⟩
      have hrun2 := handleKeepImage_eq w1 imageId requestId userId responseUrl
        clock2
        { image with
          s3Key := buildSavedImageKey userId requestId imageId
          status := ImageStatus.kept } c hgi1
        (by rw [hs3w1]
            exact s3Get_s3Put_self w.s3
              (buildSavedImageKey userId requestId imageId) c)
      have hs3idem : s3Put w1.s3 (buildSavedImageKey userId requestId imageId) c
          = w1.s3 := by
        rw [hs3w1]
        exact s3Put_s3Put_self w.s3 _ c
      have hsetw1 : { w1 with s3 := (s3Put w1.s3
          (buildSavedImageKey userId requestId imageId) c) } = w1 := by
        rw [hs3idem]
      have hid1 : updateImageS3Key w1 imageId requestId
          (buildSavedImageKey userId requestId imageId) = w1 := by
        have hpt : w1.images.map (fun img =>
            if imageKeyEq imageId requestId img then
              { img with s3Key := buildSavedImageKey userId requestId imageId }
            else img) = w1.images := by
          apply map_if_id
          intro x hx hpx
          have := (hmem x hx hpx).1
          show { x with s3Key := buildSavedImageKey userId requestId imageId } = x
          rw [← this]
        simp only [updateImageS3Key, hpt]
      have hid2 : (updateImageStatus w1 imageId requestId ImageStatus.kept
          clock2.epoch).images = w1.images := by
        show w1.images.map (fun img =>
          if imageKeyEq imageId requestId img then
            { img with
              status := ImageStatus.kept
              ttl := if ImageStatus.kept == ImageStatus.discarded
                     then some (clock2.epoch + 7 * 24 * 60 * 60)
                     else img.ttl }
          else img) = w1.images
        apply map_if_id
        intro x hx hpx
        have h2 := (hmem x hx hpx).2
        show { x with status := ImageStatus.kept, ttl := x.ttl } = x
        rw [← h2]
      refine ⟨_, hrun2, ?_, ?_, ?_⟩
      · rw [images_postWebhook, hsetw1, hid1]
        exact hid2
      · rw [s3_postWebhook, s3_updateImageStatus, s3_updateImageS3Key, hsetw1]
      · rw [hgi1]
        rfl

/-- C5 witness world: one `generated` image with its bytes in the store. -/
def c5World : World :=
  { World.empty with
    images := [{ imageId := "i5", requestId := "r5", s3Key := "temp/r5/i5.png",
                 status := ImageStatus.generated, createdAt := "t0" }]
    s3 := [("temp/r5/i5.png", "BYTES")] }

/-- The world after one keep of the C5 witness image. -/
def c5Once : World :=
  (handleKeepImage c5World "i5" "r5" "u5" "https://hooks/5" ⟨"t1", 10⟩).getD
    World.empty

/-- C5 witness: a concrete first keep succeeds, and the second keep is a
no-op in effect — same record, same storage, status `kept` under the
`.png` saved key. -/
theorem claim_C5_amended_witness :
    ∃ w2, handleKeepImage c5Once "i5" "r5" "u5" "https://hooks/5" ⟨"t2", 20⟩
        = some w2
      ∧ w2.images = c5Once.images
      ∧ w2.s3 = c5Once.s3
      ∧ (getImage c5Once "i5" "r5").map (fun i => (i.status, i.s3Key))
          = some (ImageStatus.kept, buildSavedImageKey "u5" "r5" "i5") :=
  claim_C5_amended c5World "i5" "r5" "u5" "https://hooks/5" ⟨"t1", 10⟩
    ⟨"t2", 20⟩ c5Once (by decide)

/-! ## C6 and C10: signature verification -/

/-- C6: with a parseable timestamp, (a) a request whose signature equals
`"v0=" ++ HMAC(secret, "v0:{timestamp}:{body}")` and whose timestamp is
within the 300-second tolerance verifies as valid; (b) any signature that
differs in any way fails verification; and (c) a request older than the
tolerance window yields the stale-timestamp error — decided before any
signature comparison, for every signature value, never a
signature-mismatch error. -/
theorem claim_C6 (hmacHex : String → String → String) (nowEpoch : Int)
    (signingSecret timestamp body signature : String) (t : Int)
    (hts : parseIntJS timestamp = some t) :
    (nowEpoch - t ≤ maxRequestAgeSeconds →
      (signature
          = "v0=" ++ hmacHex signingSecret ("v0:" ++ timestamp ++ ":" ++ body) →
        verifySlackRequest hmacHex nowEpoch signingSecret timestamp body signature
          = { valid := true, error := none })
      ∧ (signature
          ≠ "v0=" ++ hmacHex signingSecret ("v0:" ++ timestamp ++ ":" ++ body) →
        (verifySlackRequest hmacHex nowEpoch signingSecret timestamp body
          signature).valid = false))
    ∧ (nowEpoch - t > maxRequestAgeSeconds →
        verifySlackRequest hmacHex nowEpoch signingSecret timestamp body signature
          = { valid := false, error := some "Request timestamp too old" }) := by
  constructor
  · intro hfresh
    have hnotgt : ¬(nowEpoch - t > maxRequestAgeSeconds) := not_lt.mpr hfresh
    constructor
    · intro hsig
      subst hsig
      unfold verifySlackRequest
      simp only [hts]
      rw [if_neg hnotgt, if_neg (by simp), if_pos (by simp)]
    · intro hsig
      unfold verifySlackRequest
      simp only [hts]
      rw [if_neg hnotgt]
      by_cases hlen : (signature.length
          != ("v0=" ++ hmacHex signingSecret
              ("v0:" ++ timestamp ++ ":" ++ body)).length) = true
      · rw [if_pos hlen]
      · rw [if_neg hlen, if_neg (by simp [hsig])]
  · intro hstale
    unfold verifySlackRequest
    simp only [hts]
    rw [if_pos hstale]

/-- C6 witness: all three branches of C6 at concrete inputs — a signed
request within tolerance verifies; a flipped signature fails; a stale
request yields the stale-timestamp error for the very same (valid)
signature. -/
theorem claim_C6_witness :
    verifySlackRequest (fun s m => s ++ "#" ++ m) 100 "sec" "50" "b"
        ("v0=" ++ ("sec" ++ "#" ++ ("v0:" ++ "50" ++ ":" ++ "b")))
      = { valid := true, error := none }
    ∧ (verifySlackRequest (fun s m => s ++ "#" ++ m) 100 "sec" "50" "b"
        "v0=WRONG").valid = false
    ∧ verifySlackRequest (fun s m => s ++ "#" ++ m) 1000 "sec" "50" "b"
        ("v0=" ++ ("sec" ++ "#" ++ ("v0:" ++ "50" ++ ":" ++ "b")))
      = { valid := false, error := some "Request timestamp too old" } :=
  ⟨((claim_C6 (fun s m => s ++ "#" ++ m) 100 "sec" "50" "b"
      ("v0=" ++ ("sec" ++ "#" ++ ("v0:" ++ "50" ++ ":" ++ "b"))) 50
      (by decide)).1 (by decide)).1 rfl,
   ((claim_C6 (fun s m => s ++ "#" ++ m) 100 "sec" "50" "b" "v0=WRONG" 50
      (by decide)).1 (by decide)).2 (by decide),
   (claim_C6 (fun s m => s ++ "#" ++ m) 1000 "sec" "50" "b"
      ("v0=" ++ ("sec" ++ "#" ++ ("v0:" ++ "50" ++ ":" ++ "b"))) 50
      (by decide)).2 (by decide)⟩

/-- C10: the timestamp tolerance check is one-sided — it rejects only when
`now - timestamp` exceeds 300 seconds — so a request whose timestamp lies
arbitrarily far in the future (any offset `k`), with a matching signature,
verifies as valid. -/
theorem claim_C10 (hmacHex : String → String → String) (nowEpoch : Int)
    (signingSecret timestamp body : String) (k : Nat)
    (hts : parseIntJS timestamp = some (nowEpoch + k)) :
    verifySlackRequest hmacHex nowEpoch signingSecret timestamp body
      ("v0=" ++ hmacHex signingSecret ("v0:" ++ timestamp ++ ":" ++ body))
      = { valid := true, error := none } := by
  unfold verifySlackRequest
  simp only [hts]
  rw [if_neg (by unfold maxRequestAgeSeconds; omega), if_neg (by simp),
    if_pos (by simp)]

/-- C10 witness: a timestamp one million seconds in the future of a clock
at epoch 0 still verifies. -/
theorem claim_C10_witness :
    verifySlackRequest (fun s m => s ++ "#" ++ m) 0 "sec" "1000000" "b"
      ("v0=" ++ (("sec" ++ "#" ++ ("v0:" ++ "1000000" ++ ":" ++ "b"))))
      = { valid := true, error := none } :=
  claim_C10 (fun s m => s ++ "#" ++ m) 0 "sec" "1000000" "b" 1000000
    (by decide)

/-! ## C4: gateway validation-failure responses -/

/-- Gateway environment for the C4 scenarios. -/
def c4Env : GatewayEnv :=
  { signingSecretArn := some "arnS", botTokenArn := some "arnB",
    allowedChannelId := some "C1", requestsTable := some "tbl",
    generationQueueUrl := some "q" }

/-- C4 counterexample: validation failures are **not** all surfaced as
transport-level successes — an invocation with missing Slack headers, and
one with a bad signature, both return transport status 401, not 200 (they
do leave the world untouched). -/
theorem claim_C4_counterexample :
    (slackWebhookHandler (fun _ _ => "H") c4Env (fun _ => "sec") "rid"
        ⟨"t0", 100⟩ { headers := [], body := some "x" } World.empty).1.statusCode
      = 401
    ∧ (slackWebhookHandler (fun _ _ => "H") c4Env (fun _ => "sec") "rid"
        ⟨"t0", 100⟩
        { headers := [("x-slack-request-timestamp", "50"),
                      ("x-slack-signature", "v0=BAD")],
          body := some "x" } World.empty).1.statusCode = 401
    ∧ (401 ≠ 200) := by
  decide

/-- C4 (amended): the gateway's validation failures split in two.
Channel-restriction and empty-prompt failures return a transport-level 200
carrying a user-visible message; but missing/empty auth headers and failed
signature verification return transport status 401, and a malformed
payload returns 400.  In every one of these validation-failure branches the
returned world is unchanged: no record is created and no job enqueued. -/
theorem claim_C4_amended (hmacHex : String → String → String)
    (env : GatewayEnv) (secretValue : String → String) (freshId : String)
    (clock : Clock) (event : ApiEvent) (w : World) (arnS arnB : String)
    (hS : env.signingSecretArn = some arnS)
    (hB : env.botTokenArn = some arnB) :
    (extractSlackHeaders event.headers = none →
      slackWebhookHandler hmacHex env secretValue freshId clock event w
        = ({ statusCode := 401, body := ResponseBody.errorMissingHeaders }, w))
    ∧ (∀ ts sig, extractSlackHeaders event.headers = some (ts, sig) →
        ((verifySlackRequest hmacHex (clock.epoch : Int) (secretValue arnS) ts
            (event.body.getD "") sig).valid = false →
          slackWebhookHandler hmacHex env secretValue freshId clock event w
            = ({ statusCode := 401, body := ResponseBody.errorInvalidSignature }, w))
        ∧ ((verifySlackRequest hmacHex (clock.epoch : Int) (secretValue arnS) ts
            (event.body.getD "") sig).valid = true →
          (parseSlashCommand (parseFormUrlEncoded (event.body.getD "")) = none →
            slackWebhookHandler hmacHex env secretValue freshId clock event w
              = ({ statusCode := 400, body := ResponseBody.errorInvalidPayload }, w))
          ∧ (∀ payload,
              parseSlashCommand (parseFormUrlEncoded (event.body.getD ""))
                = some payload →
              (channelBlocked env payload.channel_id = true →
                slackWebhookHandler hmacHex env secretValue freshId clock event w
                  = ({ statusCode := 200,
                       body := ResponseBody.channelRestrictionMessage }, w))
              ∧ (channelBlocked env payload.channel_id = false →
                  jsTrim payload.text = "" →
                  slackWebhookHandler hmacHex env secretValue freshId clock event w
                    = ({ statusCode := 200,
                         body := ResponseBody.emptyPromptMessage }, w))))) := by
  refine ⟨?_, ?_⟩
  · intro hhdr
    unfold slackWebhookHandler
    simp only [hhdr]
  · intro ts sig hhdr
    refine ⟨?_, ?_⟩
    · intro hv
      unfold slackWebhookHandler
      simp only [hhdr, hS, hB, hv, Bool.not_false, if_true]
    · intro hv
      refine ⟨?_, ?_⟩
      · intro hparse
        unfold slackWebhookHandler
        simp only [hhdr, hS, hB, hv, hparse, Bool.not_true, Bool.false_eq_true,
          if_false]
      · intro payload hparse
        refine ⟨?_, ?_⟩
        · intro hch
          unfold slackWebhookHandler
          simp only [hhdr, hS, hB, hv, hparse, hch, Bool.not_true,
            Bool.false_eq_true, if_false, if_true]
        · intro hch hpr
          unfold slackWebhookHandler
          simp only [hhdr, hS, hB, hv, hparse, hch, hpr, Bool.not_true,
            Bool.false_eq_true, if_false, beq_self_eq_true, if_true]

/-- The form body of the C4 witness invocation: a well-formed slash-command
payload originating from channel `C2`. -/
def c4Body : String :=
  "token=t&team_id=T&team_domain=d&channel_id=C2&channel_name=n&user_id=U&user_name=un&command=g&text=hi&response_url=https://x&trigger_id=tr&api_app_id=A"

/-- The C4 witness invocation: validly signed, wrong channel. -/
def c4Event : ApiEvent :=
  { headers := [("x-slack-request-timestamp", "50"),
                ("x-slack-signature", "v0=H")],
    body := some c4Body }

/-- C4 witness: the wrong-channel branch — a validly signed, well-formed
invocation from a non-allowed channel gets transport 200 with the
channel-restriction message, and the world is unchanged. -/
theorem claim_C4_amended_witness :
    slackWebhookHandler (fun _ _ => "H") c4Env (fun _ => "sec") "rid"
        ⟨"t0", 100⟩ c4Event World.empty
      = ({ statusCode := 200, body := ResponseBody.channelRestrictionMessage },
         World.empty) :=
  ((((claim_C4_amended (fun _ _ => "H") c4Env (fun _ => "sec") "rid"
      ⟨"t0", 100⟩ c4Event World.empty "arnS" "arnB" rfl rfl).2 "50" "v0=H"
      (by decide)).2 (by decide)).2
      { channel_id := "C2", user_id := "U", text := "hi",
        response_url := "https://x" } (by decide)).1 (by decide)

end TShirtGen
